import Mathlib

/-!
A shallow embedding of the weather ETL pipeline in src/etl.py together with
the transactional semantics of the SQL statements its loader issues, and
proofs of the behavioural properties claimed for it.

Conventions of the embedding:
* Python dictionaries with possibly-missing keys become structures with
  `Option` fields; a subscript lookup `d["k"]` becomes `dictGet`, raising
  `PyExc.keyError` exactly when the key is absent.
* Numeric cell values are modelled as `Option Rat`; the Python null
  sentinels (`None`, `NaN`, `NaT`) are collapsed into `Option.none`.
* `pandas.to_datetime` (whose default is `errors="raise"`) is modelled by
  `toDatetime`: `None` becomes `none` (NaT), a string of the minimal
  ISO-8601 shape `YYYY-MM-DDTHH:MM` parses to itself, and any other string
  raises, mirroring the documented pandas default of raising on invalid
  parsing.  Timestamps are represented by their (injective) ISO strings.
* The warehouse table is a list of rows sharing the target schema; the
  loader's `DELETE ... USING` statement follows SQL three-valued logic: a
  comparison with NULL is never true, so a target row whose `recorded_at`
  is NULL is never matched by the delete predicate.
* A database failure is injected through the `failAt` parameter of
  `load_to_redshift`: `some (s, m)` makes step `s` of the transaction fail
  with message `m`; `none` lets the transaction run to commit.  On failure
  the code rolls back (so the durable table is unchanged) and re-raises.
-/

namespace WeatherEtl

/-- Python exceptions observable from the pipeline code.  The source defines
no exception classes of its own: `keyError` is a dict subscript miss,
`httpError` is what `response.raise_for_status()` raises, `valueError`
covers `pandas` construction/parsing errors, and `dbError` is an arbitrary
`psycopg` failure inside the load transaction.  `loadError` is the wrapper
exception named by the specification; it appears in the taxonomy so that
statements about it can be made, but no code path constructs it. -/
inductive PyExc where
  | keyError (key : String)
  | httpError (status : Nat)
  | valueError (msg : String)
  | dbError (msg : String)
  | loadError (cause : String)
deriving DecidableEq, Repr

/-- Whether an exception is the specification's `LoadError` wrapper. -/
def PyExc.isLoadError : PyExc → Bool
  | .loadError _ => true
  | _ => false

/-- One Python dictionary lookup `d[key]`: raises `KeyError key` when the
key is absent, otherwise yields the stored value. -/
def dictGet {α : Type} (v : Option α) (key : String) : Except PyExc α :=
  match v with
  | some x => .ok x
  | none => .error (.keyError key)

/-- The `hourly` object of the API response: named parallel arrays, any of
which may be missing in a malformed response.  Cells inside an array may be
null. -/
structure HourlyData where
  time : Option (List (Option String))
  temperature_2m : Option (List (Option Rat))
  relative_humidity_2m : Option (List (Option Rat))
  precipitation : Option (List (Option Rat))
  wind_speed_10m : Option (List (Option Rat))
  weather_code : Option (List (Option Int))
deriving DecidableEq, Repr

/-- The parsed JSON body returned by the archive endpoint, as
`transform_weather_data` consumes it (`raw_data["latitude"]`,
`raw_data["longitude"]`, `raw_data["hourly"]`). -/
structure RawData where
  latitude : Option Rat
  longitude : Option Rat
  hourly : Option HourlyData
deriving DecidableEq, Repr

/-- An HTTP response as seen by `extract_weather_data` after `requests.get`
returns: a status code and the parsed JSON body. -/
structure HttpResponse where
  status : Nat
  body : RawData
deriving DecidableEq, Repr

/-- requests' `response.raise_for_status()`: raises `HTTPError` exactly for
a 4xx or 5xx status code. -/
def raise_for_status (resp : HttpResponse) : Except PyExc Unit :=
  if 400 ≤ resp.status ∧ resp.status < 600 then
    .error (.httpError resp.status)
  else
    .ok ()

/-- Embedding of `extract_weather_data` (src/etl.py lines 34-79) from the
point where `requests.get` has produced a response: `raise_for_status`,
then the log line's subscripts `data["hourly"]["time"]`, then the body is
returned unchanged.  Note that none of the five requested measurement
arrays is inspected here. -/
def extract_weather_data (resp : HttpResponse) : Except PyExc RawData := do
  let _ ← raise_for_status resp
  let hourly ← dictGet resp.body.hourly "hourly"
  let _ ← dictGet hourly.time "time"
  .ok resp.body

/-- One row of the six-column DataFrame built on src/etl.py lines 101-108,
before metadata columns are attached. -/
structure CandidateRow where
  time : Option String
  temperature_f : Option Rat
  humidity_pct : Option Rat
  precipitation_in : Option Rat
  wind_speed_mph : Option Rat
  weather_code : Option Int
deriving DecidableEq, Repr

/-- One row of the transformed table / of the warehouse target relation
(the target schema has the same nine columns). -/
structure WeatherRecord where
  recorded_at : Option String
  temperature_f : Option Rat
  humidity_pct : Option Rat
  precipitation_in : Option Rat
  wind_speed_mph : Option Rat
  weather_code : Option Int
  location_name : String
  latitude : Rat
  longitude : Rat
deriving DecidableEq, Repr

/-- Shape test used by the model of `pandas.to_datetime` for the timestamps
this pipeline sees: the minimal ISO-8601 form `YYYY-MM-DDTHH:MM` that the
Open-Meteo hourly `time` array carries. -/
def isIso8601Minute (s : String) : Bool :=
  match s.toList with
  | [y1, y2, y3, y4, '-', m1, m2, '-', d1, d2, 'T', h1, h2, ':', n1, n2] =>
    y1.isDigit && y2.isDigit && y3.isDigit && y4.isDigit &&
      m1.isDigit && m2.isDigit && d1.isDigit && d2.isDigit &&
      h1.isDigit && h2.isDigit && n1.isDigit && n2.isDigit
  | _ => false

/-- Model of `pandas.to_datetime` applied to one cell of the `recorded_at`
column (src/etl.py line 111) under the default `errors="raise"`: a null
cell becomes NaT (here `none`) without error, a parseable timestamp string
is converted (represented by itself), and an unparseable string raises a
parsing `ValueError`. -/
def toDatetime : Option String → Except PyExc (Option String)
  | none => .ok none
  | some s => if isIso8601Minute s then .ok (some s) else .error (.valueError s)

/-- Positional zip of the six hourly arrays into candidate rows, the
row-wise reading of the DataFrame constructor on src/etl.py lines 101-108. -/
def zipHourly : List (Option String) → List (Option Rat) → List (Option Rat) →
    List (Option Rat) → List (Option Rat) → List (Option Int) → List CandidateRow
  | t :: ts, a :: xs, b :: ys, c :: zs, d :: ws, e :: vs =>
    ⟨t, a, b, c, d, e⟩ :: zipHourly ts xs ys zs ws vs
  | _, _, _, _, _, _ => []

/-- Effectful map over a list in the `Except` monad, stopping at the first
raised exception (the columnwise `pd.to_datetime` call is applied through
it row by row). -/
def mapExcept {α β : Type} (f : α → Except PyExc β) : List α → Except PyExc (List β)
  | [] => .ok []
  | a :: l => do
    let b ← f a
    let bs ← mapExcept f l
    .ok (b :: bs)

/-- Apply `toDatetime` to the time cell of one candidate row, keeping every
other column unchanged. -/
def rowToDatetime (r : CandidateRow) : Except PyExc CandidateRow := do
  let t ← toDatetime r.time
  .ok { r with time := t }

/-- Attach the metadata columns added on src/etl.py lines 114-116 uniformly
to one candidate row, producing a full nine-column record. -/
def attachMeta (location_name : String) (lat lon : Rat) (r : CandidateRow) : WeatherRecord :=
  { recorded_at := r.time
    temperature_f := r.temperature_f
    humidity_pct := r.humidity_pct
    precipitation_in := r.precipitation_in
    wind_speed_mph := r.wind_speed_mph
    weather_code := r.weather_code
    location_name := location_name
    latitude := lat
    longitude := lon }

/-- The `df.dropna(subset=["temperature_f", "precipitation_in"], how="all")`
predicate (src/etl.py line 119): a row is kept exactly when at least one of
the two subset columns is non-null. -/
def keepRow (r : WeatherRecord) : Bool :=
  r.temperature_f.isSome || r.precipitation_in.isSome

/-- Round a rational to two decimal places, ties to even (the behaviour of
`DataFrame.round`, which delegates to numpy's round-half-to-even; the
claims proved below do not depend on the tie direction). -/
def round2 (q : Rat) : Rat :=
  let x := q * 100
  let f : Int := ⌊x⌋
  let r := x - (f : Rat)
  let n : Int :=
    if r < 1 / 2 then f
    else if 1 / 2 < r then f + 1
    else if f % 2 = 0 then f else f + 1
  (n : Rat) / 100

/-- The rounding step of src/etl.py lines 122-123: the four numeric columns
are rounded cellwise to two decimals; null cells stay null and no other
column changes. -/
def roundRecord (r : WeatherRecord) : WeatherRecord :=
  { r with
    temperature_f := r.temperature_f.map round2
    humidity_pct := r.humidity_pct.map round2
    precipitation_in := r.precipitation_in.map round2
    wind_speed_mph := r.wind_speed_mph.map round2 }

/-- The part of `transform_weather_data` up to and including the metadata
columns (src/etl.py lines 98-116): the dictionary lookups in evaluation
order, the DataFrame constructor's equal-length check (a `ValueError` when
the named arrays differ in length), `pd.to_datetime` over the `recorded_at`
column, and the three uniform metadata columns.  Its result is the table of
candidate records, before the dropna filter and the rounding. -/
def transformCandidates (raw : RawData) (location_name : String) :
    Except PyExc (List WeatherRecord) := do
  let hourly ← dictGet raw.hourly "hourly"
  let time ← dictGet hourly.time "time"
  let temp ← dictGet hourly.temperature_2m "temperature_2m"
  let hum ← dictGet hourly.relative_humidity_2m "relative_humidity_2m"
  let prec ← dictGet hourly.precipitation "precipitation"
  let wind ← dictGet hourly.wind_speed_10m "wind_speed_10m"
  let code ← dictGet hourly.weather_code "weather_code"
  if temp.length == time.length && hum.length == time.length &&
      prec.length == time.length && wind.length == time.length &&
      code.length == time.length then
    let rows ← mapExcept rowToDatetime (zipHourly time temp hum prec wind code)
    let lat ← dictGet raw.latitude "latitude"
    let lon ← dictGet raw.longitude "longitude"
    .ok (rows.map (attachMeta location_name lat lon))
  else
    .error (.valueError "All arrays must be of the same length")

/-- Embedding of `transform_weather_data` (src/etl.py lines 85-126): build
the candidate table, drop the rows whose `temperature_f` and
`precipitation_in` are both null, then round the four numeric columns. -/
def transform_weather_data (raw : RawData) (location_name : String) :
    Except PyExc (List WeatherRecord) := do
  let df ← transformCandidates raw location_name
  .ok ((df.filter keepRow).map roundRecord)

/-- The five statements the load transaction executes, in program order
(src/etl.py lines 150-182): create the staging table, bulk-insert into it,
delete the matching target rows, copy staging into the target, commit. -/
inductive LoadStep where
  | createStaging
  | insertStaging
  | deleteMatching
  | insertTarget
  | commit
deriving DecidableEq, Repr

/-- Failure injection: when `failAt` designates the step about to run, that
step raises a database error with the given message. -/
def checkStep (failAt : Option (LoadStep × String)) (s : LoadStep) : Except String Unit :=
  match failAt with
  | some (s2, m) => if s2 = s then .error m else .ok ()
  | none => .ok ()

/-- The `WHERE` predicate of the loader's `DELETE ... USING` statement
(src/etl.py lines 168-173) for one target row `t` against one staging row
`s`, under SQL three-valued logic: `recorded_at = recorded_at` is true only
when both sides are non-NULL and equal, so a NULL timestamp never matches
anything, itself included. -/
def sqlKeyMatch (t s : WeatherRecord) : Bool :=
  t.location_name == s.location_name &&
    match t.recorded_at, s.recorded_at with
    | some a, some b => a == b
    | _, _ => false

/-- Whether a target row is matched by some staging row, i.e. whether the
`DELETE ... USING staging` statement removes it. -/
def matchesStaging (staging : List WeatherRecord) (t : WeatherRecord) : Bool :=
  staging.any (fun s => sqlKeyMatch t s)

/-- The body of the load transaction (src/etl.py lines 147-182): steps run
in order on transaction-local state; a step failure aborts the chain.  The
staging relation starts empty (`CREATE TEMP TABLE ... LIKE`), receives all
the records (`executemany INSERT`), the delete removes every target row
matched by a staging row, and the final insert appends all staging rows to
the target.  The returned value is the target content the commit makes
durable. -/
def runLoadTxn (records table : List WeatherRecord)
    (failAt : Option (LoadStep × String)) : Except String (List WeatherRecord) := do
  let _ ← checkStep failAt .createStaging
  let staging : List WeatherRecord := []
  let _ ← checkStep failAt .insertStaging
  let staging := staging ++ records
  let _ ← checkStep failAt .deleteMatching
  let target := table.filter (fun t => ! matchesStaging staging t)
  let _ ← checkStep failAt .insertTarget
  let target := target ++ staging
  let _ ← checkStep failAt .commit
  .ok target

/-- Outcome of one `load_to_redshift` call: the exception it raised (if
any) and the durable content of the target table afterwards. -/
structure LoadResult where
  raised : Option PyExc
  table : List WeatherRecord
deriving DecidableEq, Repr

/-- Embedding of `load_to_redshift` (src/etl.py lines 132-193): on success
the transaction's result is committed and nothing is raised; on any failure
the `except` branch runs `conn.rollback()` — leaving the durable table
exactly as it was — and re-raises the original database error unwrapped
(the bare `raise` on line 189). -/
def load_to_redshift (records table : List WeatherRecord)
    (failAt : Option (LoadStep × String)) : LoadResult :=
  match runLoadTxn records table failAt with
  | .ok final => { raised := none, table := final }
  | .error m => { raised := some (.dbError m), table := table }

/-- The table produced by a successful (failure-free) load. -/
def loadOk (records table : List WeatherRecord) : List WeatherRecord :=
  (load_to_redshift records table none).table

/-- The natural key of a row, `(location_name, recorded_at)`. -/
def keyOf (r : WeatherRecord) : String × Option String :=
  (r.location_name, r.recorded_at)

/-- The rows of a table carrying a given natural key. -/
def rowsForKey (table : List WeatherRecord) (loc : String) (ts : Option String) :
    List WeatherRecord :=
  table.filter (fun r => r.location_name == loc && r.recorded_at == ts)

/-- How many rows of a table carry a given natural key. -/
def countKey (table : List WeatherRecord) (loc : String) (ts : Option String) : Nat :=
  (rowsForKey table loc ts).length

/-- A table holds at most one row per `(location_name, recorded_at)` pair. -/
def atMostOnePerKey (table : List WeatherRecord) : Prop :=
  ∀ loc ts, countKey table loc ts ≤ 1

/-- The column order of the transformed DataFrame (src/etl.py lines
101-116): the six dictionary-literal keys in order, then the three appended
metadata columns.  `list(df.columns)` on line 158 observes exactly this
order, and `df.itertuples` emits each row in it. -/
def dfColumns : List String :=
  ["recorded_at", "temperature_f", "humidity_pct", "precipitation_in",
   "wind_speed_mph", "weather_code", "location_name", "latitude", "longitude"]

/-- Modelled from the spec: the warehouse target relation's columns in
declaration order (spec section 6, "Warehouse"); the table's DDL pre-exists
outside this repository, so its layout is taken from the specification's
schema list. -/
def warehouseSchemaColumns : List String :=
  ["recorded_at", "temperature_f", "humidity_pct", "precipitation_in",
   "wind_speed_mph", "weather_code", "location_name", "latitude", "longitude"]

/-- An SQL cell value as it travels through the staging copy. -/
inductive SqlVal where
  | vnull
  | str (s : String)
  | num (q : Rat)
  | vint (n : Int)
deriving DecidableEq, Repr

/-- The `tuple(row)` produced for one record by `df.itertuples(index=False)`
(src/etl.py line 155): the nine cell values in DataFrame column order. -/
def rowTuple (r : WeatherRecord) : List SqlVal :=
  [match r.recorded_at with | none => .vnull | some t => .str t,
   match r.temperature_f with | none => .vnull | some q => .num q,
   match r.humidity_pct with | none => .vnull | some q => .num q,
   match r.precipitation_in with | none => .vnull | some q => .num q,
   match r.wind_speed_mph with | none => .vnull | some q => .num q,
   match r.weather_code with | none => .vnull | some n => .vint n,
   .str r.location_name,
   .num r.latitude,
   .num r.longitude]

/-- Read one tuple back as a row of the target relation, interpreting each
position according to `warehouseSchemaColumns` — the reading performed by
the position-based `INSERT INTO target SELECT * FROM staging` copy
(src/etl.py lines 176-179).  Yields `none` when a cell's type does not fit
its column. -/
def targetRowFromTuple : List SqlVal → Option WeatherRecord
  | [c0, c1, c2, c3, c4, c5, c6, c7, c8] => do
    let ra ← match c0 with | .vnull => some none | .str t => some (some t) | _ => none
    let tf ← match c1 with | .vnull => some none | .num q => some (some q) | _ => none
    let hp ← match c2 with | .vnull => some none | .num q => some (some q) | _ => none
    let pc ← match c3 with | .vnull => some none | .num q => some (some q) | _ => none
    let wm ← match c4 with | .vnull => some none | .num q => some (some q) | _ => none
    let wc ← match c5 with | .vnull => some none | .vint n => some (some n) | _ => none
    let ln ← match c6 with | .str s => some s | _ => none
    let la ← match c7 with | .num q => some q | _ => none
    let lo ← match c8 with | .num q => some q | _ => none
    some ⟨ra, tf, hp, pc, wm, wc, ln, la, lo⟩
  | _ => none

/-! Concrete inputs used by witnesses and counterexamples. -/

/-- A record whose `recorded_at` is NULL but which passes the liveness
filter (its temperature is present), as the transformer emits for a null
`time` cell. -/
def nullKeyRec : WeatherRecord :=
  { recorded_at := none, temperature_f := some 70, humidity_pct := none,
    precipitation_in := some 0, wind_speed_mph := none, weather_code := some 1,
    location_name := "Boston, MA", latitude := 42, longitude := -71 }

/-- A fully keyed record used to instantiate universally quantified
loader statements. -/
def keyedRec : WeatherRecord :=
  { recorded_at := some "2025-01-01T00:00", temperature_f := some 70,
    humidity_pct := some 50, precipitation_in := some 0, wind_speed_mph := some 5,
    weather_code := some 1, location_name := "Boston, MA", latitude := 42,
    longitude := -71 }

/-- First version of a row for the key `("Boston, MA", 2025-01-01T00:00)`. -/
def c2recA : WeatherRecord :=
  { recorded_at := some "2025-01-01T00:00", temperature_f := some 70,
    humidity_pct := some 50, precipitation_in := some 0, wind_speed_mph := some 5,
    weather_code := some 1, location_name := "Boston, MA", latitude := 42,
    longitude := -71 }

/-- Second version of a row for the same key, with a different value. -/
def c2recB : WeatherRecord :=
  { recorded_at := some "2025-01-01T00:00", temperature_f := some 71,
    humidity_pct := some 55, precipitation_in := some 0, wind_speed_mph := some 6,
    weather_code := some 2, location_name := "Boston, MA", latitude := 42,
    longitude := -71 }

/-- A keyed record loaded twice within one batch in the C4 counterexample. -/
def c4rec : WeatherRecord :=
  { recorded_at := some "2025-01-01T00:00", temperature_f := some 70,
    humidity_pct := none, precipitation_in := some 0, wind_speed_mph := none,
    weather_code := some 1, location_name := "Boston, MA", latitude := 42,
    longitude := -71 }

/-- A raw input whose first hour has both liveness fields null (with all
the other measurements present) and whose second hour has a null
temperature but a zero precipitation. -/
def c5raw : RawData :=
  { latitude := some 42, longitude := some (-71),
    hourly := some
      { time := some [some "2025-01-01T00:00", some "2025-01-01T01:00"]
        temperature_2m := some [none, none]
        relative_humidity_2m := some [some 50, none]
        precipitation := some [none, some 0]
        wind_speed_10m := some [some 5, none]
        weather_code := some [some 3, none] } }

/-- The candidate record the transformer drops from `c5raw`. -/
def c5dropped : WeatherRecord :=
  { recorded_at := some "2025-01-01T00:00", temperature_f := none,
    humidity_pct := some 50, precipitation_in := none, wind_speed_mph := some 5,
    weather_code := some 3, location_name := "Boston, MA", latitude := 42,
    longitude := -71 }

/-- The candidate record the transformer retains from `c5raw`. -/
def c5cand : WeatherRecord :=
  { recorded_at := some "2025-01-01T01:00", temperature_f := none,
    humidity_pct := none, precipitation_in := some 0, wind_speed_mph := none,
    weather_code := none, location_name := "Boston, MA", latitude := 42,
    longitude := -71 }

/-- The specification's positional-alignment example input: two hours with
temperatures 30 and 31. -/
def c6raw : RawData :=
  { latitude := some 42, longitude := some (-71),
    hourly := some
      { time := some [some "2025-01-01T00:00", some "2025-01-01T01:00"]
        temperature_2m := some [some 30, some 31]
        relative_humidity_2m := some [some 50, some 55]
        precipitation := some [some 0, some 0]
        wind_speed_10m := some [some 5, some 6]
        weather_code := some [some 1, some 2] } }

/-- The first candidate record produced from `c6raw`. -/
def c6rec0 : WeatherRecord :=
  { recorded_at := some "2025-01-01T00:00", temperature_f := some 30,
    humidity_pct := some 50, precipitation_in := some 0, wind_speed_mph := some 5,
    weather_code := some 1, location_name := "Boston, MA", latitude := 42,
    longitude := -71 }

/-- The second candidate record produced from `c6raw`. -/
def c6rec1 : WeatherRecord :=
  { recorded_at := some "2025-01-01T01:00", temperature_f := some 31,
    humidity_pct := some 55, precipitation_in := some 0, wind_speed_mph := some 6,
    weather_code := some 2, location_name := "Boston, MA", latitude := 42,
    longitude := -71 }

/-- The candidate table produced from `c6raw`. -/
def c6cands : List WeatherRecord := [c6rec0, c6rec1]

/-- An `hourly` object that carries the `time` array but is missing the
`temperature_2m` array. -/
def c7hourly : HourlyData :=
  { time := some [some "2025-01-01T00:00"]
    temperature_2m := none
    relative_humidity_2m := some [some 50]
    precipitation := some [some 0]
    wind_speed_10m := some [some 5]
    weather_code := some [some 1] }

/-- A successful (status 200) HTTP response whose body is missing one of
the five requested field arrays. -/
def c7resp : HttpResponse :=
  { status := 200
    body := { latitude := some 42, longitude := some (-71), hourly := some c7hourly } }

/-- A raw input whose only hour has an unparseable `time` string but a
present temperature. -/
def c10badRaw : RawData :=
  { latitude := some 42, longitude := some (-71),
    hourly := some
      { time := some [some "not-a-date"]
        temperature_2m := some [some 70]
        relative_humidity_2m := some [none]
        precipitation := some [none]
        wind_speed_10m := some [none]
        weather_code := some [none] } }

/-- A raw input whose only hour has a null `time` cell but a present
temperature. -/
def c10nullRaw : RawData :=
  { latitude := some 42, longitude := some (-71),
    hourly := some
      { time := some [none]
        temperature_2m := some [some 70]
        relative_humidity_2m := some [none]
        precipitation := some [none]
        wind_speed_10m := some [none]
        weather_code := some [none] } }

/-- The candidate record produced from `c10nullRaw`: a null natural-key
component that nevertheless passes the liveness filter. -/
def c10nullRec : WeatherRecord :=
  { recorded_at := none, temperature_f := some 70, humidity_pct := none,
    precipitation_in := none, wind_speed_mph := none, weather_code := none,
    location_name := "Boston, MA", latitude := 42, longitude := -71 }

/-! Helper lemmas about the loader. -/

/-- A successful load leaves the target equal to its rows unmatched by the
staging content, followed by all the records. -/
theorem loadOk_eq (records table : List WeatherRecord) :
    loadOk records table =
      table.filter (fun t => ! matchesStaging records t) ++ records := rfl

/-- A row with a non-null timestamp matches itself under the delete
predicate. -/
theorem sqlKeyMatch_self (r : WeatherRecord) (h : r.recorded_at ≠ none) :
    sqlKeyMatch r r = true := by
  unfold sqlKeyMatch
  cases hr : r.recorded_at with
  | none => exact absurd hr h
  | some a => simp [hr]

/-- A row of the batch with a non-null timestamp is matched by the batch
itself. -/
theorem matchesStaging_self (records : List WeatherRecord) (r : WeatherRecord)
    (hmem : r ∈ records) (h : r.recorded_at ≠ none) :
    matchesStaging records r = true :=
  List.any_eq_true.mpr ⟨r, hmem, sqlKeyMatch_self r h⟩

/-- Rows sharing the key `(loc, some ts)` of some batch row are matched by
the batch. -/
theorem matchesStaging_of_key (records : List WeatherRecord) (x s : WeatherRecord)
    (hs : s ∈ records) (hxl : x.location_name = s.location_name)
    (hxt : x.recorded_at = s.recorded_at) (hnn : s.recorded_at ≠ none) :
    matchesStaging records x = true := by
  refine List.any_eq_true.mpr ⟨s, hs, ?_⟩
  unfold sqlKeyMatch
  cases ht : s.recorded_at with
  | none => exact absurd ht hnn
  | some a => simp [hxl, hxt, ht]

/-- Loading a single record whose key is `(L, some t)` leaves the target's
rows for that key equal to exactly that record, whatever the prior state. -/
theorem rowsForKey_loadOk_single (T : List WeatherRecord) (L t : String)
    (s : WeatherRecord) (hsL : s.location_name = L) (hst : s.recorded_at = some t) :
    rowsForKey (loadOk [s] T) L (some t) = [s] := by
  rw [loadOk_eq]
  unfold rowsForKey
  rw [List.filter_append]
  have h1 : (T.filter fun x => ! matchesStaging [s] x).filter
      (fun r => r.location_name == L && r.recorded_at == some t) = [] := by
    refine List.filter_eq_nil_iff.mpr ?_
    intro x hx hq
    have hp := List.of_mem_filter hx
    simp only [Bool.and_eq_true, beq_iff_eq] at hq
    have hm : matchesStaging [s] x = true :=
      matchesStaging_of_key [s] x s (List.mem_singleton.mpr rfl)
        (hq.1.trans hsL.symm) (hq.2.trans hst.symm) (by rw [hst]; simp)
    rw [hm] at hp
    simp at hp
  rw [h1]
  simp [hsL, hst]

/-- Claim C1 (amended): for record batches in which every record carries a
non-null `recorded_at`, running `load` twice with the identical batch
leaves the target table exactly as a single run does. -/
theorem c1_load_idempotent (R T : List WeatherRecord)
    (h : ∀ r ∈ R, r.recorded_at ≠ none) :
    loadOk R (loadOk R T) = loadOk R T := by
  have hR : R.filter (fun t => ! matchesStaging R t) = [] := by
    refine List.filter_eq_nil_iff.mpr ?_
    intro a ha
    simp [matchesStaging_self R a ha (h a ha)]
  simp only [loadOk_eq, List.filter_append, hR, List.filter_filter, Bool.and_self,
    List.append_nil]

/-- Claim C1 counterexample: a batch holding one record with a NULL
`recorded_at` is appended again by a second identical load, because the
delete predicate `recorded_at = recorded_at` is never true on NULL; the
final table differs from the single-load result. -/
theorem c1_counterexample :
    loadOk [nullKeyRec] (loadOk [nullKeyRec] []) ≠ loadOk [nullKeyRec] [] := by
  decide

/-- Claim C1 witness: the amended statement applied to a concrete one-record
batch with a non-null key. -/
theorem c1_witness :
    (∀ r ∈ [keyedRec], r.recorded_at ≠ none) ∧
      loadOk [keyedRec] (loadOk [keyedRec] []) = loadOk [keyedRec] [] :=
  ⟨by decide, c1_load_idempotent [keyedRec] [] (by decide)⟩

/-- Claim C2: loading a record with natural key `(L, t)` and then a second
record with the same key leaves, for every prior table state, exactly one
row for that key after each load, the second load's row being the second
record entirely (last write wins). -/
theorem c2_last_write_wins (T : List WeatherRecord) (L t : String)
    (r1 r2 : WeatherRecord)
    (h1L : r1.location_name = L) (h1t : r1.recorded_at = some t)
    (h2L : r2.location_name = L) (h2t : r2.recorded_at = some t) :
    rowsForKey (loadOk [r1] T) L (some t) = [r1] ∧
      rowsForKey (loadOk [r2] (loadOk [r1] T)) L (some t) = [r2] :=
  ⟨rowsForKey_loadOk_single T L t r1 h1L h1t,
    rowsForKey_loadOk_single (loadOk [r1] T) L t r2 h2L h2t⟩

/-- Claim C2 witness: two successive single-record loads for the key
`("Boston, MA", 2025-01-01T00:00)` against an initially empty table. -/
theorem c2_witness :
    rowsForKey (loadOk [c2recA] []) "Boston, MA" (some "2025-01-01T00:00") = [c2recA] ∧
      rowsForKey (loadOk [c2recB] (loadOk [c2recA] [])) "Boston, MA"
        (some "2025-01-01T00:00") = [c2recB] :=
  c2_last_write_wins [] "Boston, MA" "2025-01-01T00:00" c2recA c2recB rfl rfl rfl rfl

/-- Claim C3: a failure injected at any step of the load transaction leaves
the durable target table exactly as it was and re-raises the database error
to the caller. -/
theorem c3_rollback_on_failure (records table : List WeatherRecord)
    (s : LoadStep) (m : String) :
    (load_to_redshift records table (some (s, m))).table = table ∧
      (load_to_redshift records table (some (s, m))).raised = some (.dbError m) := by
  cases s <;> exact ⟨rfl, rfl⟩

/-- Claim C4 counterexample: a batch that contains the same keyed record
twice is loaded with both copies, so the target ends with two rows for one
`(location_name, recorded_at)` pair. -/
theorem c4_counterexample : ¬ atMostOnePerKey (loadOk [c4rec, c4rec] []) :=
  fun h => absurd (h "Boston, MA" (some "2025-01-01T00:00")) (by decide)

/-- Appending tables adds their per-key row counts. -/
theorem countKey_append (A B : List WeatherRecord) (L : String) (ts : Option String) :
    countKey (A ++ B) L ts = countKey A L ts + countKey B L ts := by
  simp [countKey, rowsForKey, List.filter_append]

/-- Filtering a table cannot increase the row count of any key. -/
theorem countKey_filter_le (T : List WeatherRecord) (p : WeatherRecord → Bool)
    (L : String) (ts : Option String) :
    countKey (T.filter p) L ts ≤ countKey T L ts :=
  List.Sublist.length_le (List.Sublist.filter _ (List.filter_sublist T))

/-- A batch with pairwise-distinct natural keys holds at most one row for
any key. -/
theorem countKey_le_one_of_pairwise (R : List WeatherRecord)
    (hd : R.Pairwise (fun a b => keyOf a ≠ keyOf b)) (L : String) (ts : Option String) :
    countKey R L ts ≤ 1 := by
  induction R with
  | nil => simp [countKey, rowsForKey]
  | cons a R ih =>
    have hd2 := List.pairwise_cons.mp hd
    unfold countKey rowsForKey at ih ⊢
    rw [List.filter_cons]
    by_cases hq : (a.location_name == L && a.recorded_at == ts) = true
    · rw [if_pos hq]
      have hrest : R.filter (fun r => r.location_name == L && r.recorded_at == ts) = [] := by
        refine List.filter_eq_nil_iff.mpr ?_
        intro x hx hqx
        simp only [Bool.and_eq_true, beq_iff_eq] at hq hqx
        exact hd2.1 x hx (by simp [keyOf, hq.1, hq.2, hqx.1, hqx.2])
      simp [hrest]
    · rw [if_neg hq]
      exact ih hd2.2

/-- When some batch row carries the key `(L, some a)`, the delete step
removes every target row with that key. -/
theorem countKey_deleted (T R : List WeatherRecord) (L a : String)
    (s : WeatherRecord) (hs : s ∈ R) (hkey : keyOf s = (L, some a)) :
    countKey (T.filter fun t => ! matchesStaging R t) L (some a) = 0 := by
  unfold countKey rowsForKey
  rw [List.length_eq_zero]
  refine List.filter_eq_nil_iff.mpr ?_
  intro x hx hq
  have hp := List.of_mem_filter hx
  simp only [Bool.and_eq_true, beq_iff_eq] at hq
  simp only [keyOf, Prod.mk.injEq] at hkey
  have hm : matchesStaging R x = true :=
    matchesStaging_of_key R x s hs (hq.1.trans hkey.1.symm)
      (hq.2.trans hkey.2.symm) (by rw [hkey.2]; simp)
  rw [hm] at hp
  simp at hp

/-- Claim C4 (amended): when the incoming batch has pairwise-distinct,
non-null natural keys and the prior table held at most one row per key, a
successful load again leaves at most one row per key. -/
theorem c4_unique_key_invariant (records table : List WeatherRecord)
    (ht : atMostOnePerKey table)
    (hd : records.Pairwise (fun a b => keyOf a ≠ keyOf b))
    (hn : ∀ r ∈ records, r.recorded_at ≠ none) :
    atMostOnePerKey (loadOk records table) := by
  intro L ts
  rw [loadOk_eq, countKey_append]
  cases ts with
  | none =>
    have hR0 : countKey records L none = 0 := by
      unfold countKey rowsForKey
      rw [List.length_eq_zero]
      refine List.filter_eq_nil_iff.mpr ?_
      intro x hx hq
      simp only [Bool.and_eq_true, beq_iff_eq] at hq
      exact hn x hx hq.2
    have h1 := countKey_filter_le table (fun t => ! matchesStaging records t) L none
    have h2 := ht L none
    omega
  | some a =>
    by_cases hex : ∃ s ∈ records, keyOf s = (L, some a)
    · obtain ⟨s, hs, hkey⟩ := hex
      rw [countKey_deleted table records L a s hs hkey]
      simpa using countKey_le_one_of_pairwise records hd L (some a)
    · have hR0 : countKey records L (some a) = 0 := by
        unfold countKey rowsForKey
        rw [List.length_eq_zero]
        refine List.filter_eq_nil_iff.mpr ?_
        intro x hx hq
        simp only [Bool.and_eq_true, beq_iff_eq] at hq
        exact hex ⟨x, hx, by simp [keyOf, hq.1, hq.2]⟩
      have h1 := countKey_filter_le table (fun t => ! matchesStaging records t) L (some a)
      have h2 := ht L (some a)
      omega

/-- Claim C4 witness: the amended invariant applied to a one-record batch
against an empty table. -/
theorem c4_witness : atMostOnePerKey (loadOk [keyedRec] []) :=
  c4_unique_key_invariant [keyedRec] []
    (fun L ts => by simp [countKey, rowsForKey]) (by simp) (by decide)

/-- Claim C8 counterexample: an injected database failure makes the loader
raise the bare underlying error, which is not the specification's
`LoadError` wrapper. -/
theorem c8_counterexample :
    (load_to_redshift [] [] (some (.deleteMatching, "connection reset"))).raised =
        some (.dbError "connection reset") ∧
      PyExc.isLoadError (.dbError "connection reset") = false :=
  ⟨rfl, rfl⟩

/-- Claim C8 (amended): whatever step fails, the exception the loader
raises after rolling back is the underlying database error itself,
unwrapped. -/
theorem c8_reraise_unwrapped (records table : List WeatherRecord)
    (s : LoadStep) (m : String) :
    ∃ e, (load_to_redshift records table (some (s, m))).raised = some e ∧
      e = .dbError m ∧ e.isLoadError = false := by
  cases s <;> exact ⟨.dbError m, rfl, rfl, rfl⟩

/-! Helper lemmas about the transformer. -/

/-- When the candidate stage succeeds, the transformer's output is the
candidate table filtered by the liveness predicate and then rounded. -/
theorem transform_eq_of_candidates (raw : RawData) (loc : String)
    (cands : List WeatherRecord) (hc : transformCandidates raw loc = .ok cands) :
    transform_weather_data raw loc = .ok ((cands.filter keepRow).map roundRecord) := by
  unfold transform_weather_data
  rw [hc]
  rfl

/-- Rounding does not change which rows the liveness filter keeps. -/
theorem keepRow_roundRecord (r : WeatherRecord) :
    keepRow (roundRecord r) = keepRow r := by
  unfold keepRow roundRecord
  cases h1 : r.temperature_f <;> cases h2 : r.precipitation_in <;> simp [h1, h2]

/-- The liveness predicate holds exactly when the two signal fields are not
both null. -/
theorem keepRow_iff (r : WeatherRecord) :
    keepRow r = true ↔ ¬(r.temperature_f = none ∧ r.precipitation_in = none) := by
  unfold keepRow
  cases h1 : r.temperature_f <;> cases h2 : r.precipitation_in <;> simp [h1, h2]

/-- Claim C5: a candidate record reaches the transformer's output (in its
rounded form) exactly when its `temperature_f` and `precipitation_in` are
not both null; no other field participates in the exclusion decision. -/
theorem c5_liveness_filter (raw : RawData) (loc : String)
    (cands out : List WeatherRecord)
    (hc : transformCandidates raw loc = .ok cands)
    (ho : transform_weather_data raw loc = .ok out)
    (r : WeatherRecord) (hr : r ∈ cands) :
    roundRecord r ∈ out ↔ ¬(r.temperature_f = none ∧ r.precipitation_in = none) := by
  have hout : Except.ok (ε := PyExc) out =
      .ok ((cands.filter keepRow).map roundRecord) :=
    ho.symm.trans (transform_eq_of_candidates raw loc cands hc)
  have houteq : out = (cands.filter keepRow).map roundRecord := by
    injection hout
  subst houteq
  constructor
  · intro hmem
    rcases List.mem_map.mp hmem with ⟨x, hxf, hxe⟩
    have hkx : keepRow x = true := List.of_mem_filter hxf
    have hround : keepRow (roundRecord r) = true := by
      rw [← hxe, keepRow_roundRecord]
      exact hkx
    rw [keepRow_roundRecord] at hround
    exact (keepRow_iff r).mp hround
  · intro hlive
    exact List.mem_map.mpr
      ⟨r, List.mem_filter.mpr ⟨hr, (keepRow_iff r).mpr hlive⟩, rfl⟩

/-- Claim C5 witness: from `c5raw`, the candidate with a null temperature
but a zero precipitation is retained (and the spec's both-null candidate is
excluded, `keepRow c5dropped` being false). -/
theorem c5_witness :
    roundRecord c5cand ∈ ([c5dropped, c5cand].filter keepRow).map roundRecord ↔
      ¬(c5cand.temperature_f = none ∧ c5cand.precipitation_in = none) :=
  c5_liveness_filter c5raw "Boston, MA" [c5dropped, c5cand]
    (([c5dropped, c5cand].filter keepRow).map roundRecord) rfl rfl c5cand (by decide)

/-- Claim C10 (amended): a null `time` cell converts to NaT without raising,
and a candidate with a null `recorded_at` that passes the liveness filter is
retained in the transformer's output with its null key intact, reaching the
loader; only an unparseable (non-null) string makes the conversion raise. -/
theorem c10_null_timestamp (raw : RawData) (loc : String)
    (cands : List WeatherRecord) (hc : transformCandidates raw loc = .ok cands)
    (r : WeatherRecord) (hr : r ∈ cands) (hnull : r.recorded_at = none)
    (hlive : ¬(r.temperature_f = none ∧ r.precipitation_in = none)) :
    toDatetime none = .ok none ∧
      transform_weather_data raw loc = .ok ((cands.filter keepRow).map roundRecord) ∧
      roundRecord r ∈ (cands.filter keepRow).map roundRecord ∧
      (roundRecord r).recorded_at = none := by
  refine ⟨rfl, transform_eq_of_candidates raw loc cands hc, ?_, ?_⟩
  · exact List.mem_map.mpr
      ⟨r, List.mem_filter.mpr ⟨hr, (keepRow_iff r).mpr hlive⟩, rfl⟩
  · show (roundRecord r).recorded_at = none
    simp [roundRecord, hnull]

/-- Claim C10 counterexample: an unparseable `time` string with a present
temperature makes the transformer raise instead of retaining the candidate
with a null `recorded_at`. -/
theorem c10_counterexample :
    transform_weather_data c10badRaw "Boston, MA" =
      .error (.valueError "not-a-date") := rfl

/-- Claim C10 witness: the amended statement at a concrete raw input with a
null `time` cell and a present temperature. -/
theorem c10_witness :
    toDatetime none = .ok none ∧
      transform_weather_data c10nullRaw "Boston, MA" =
        .ok (([c10nullRec].filter keepRow).map roundRecord) ∧
      roundRecord c10nullRec ∈ ([c10nullRec].filter keepRow).map roundRecord ∧
      (roundRecord c10nullRec).recorded_at = none :=
  c10_null_timestamp c10nullRaw "Boston, MA" [c10nullRec] rfl c10nullRec
    (by decide) rfl (by decide)

/-- Claim C9: the transformed DataFrame's column order coincides with the
warehouse schema's nine columns, and reading a row tuple back positionally
according to that schema reconstructs exactly the record it came from — the
position-based `INSERT INTO target SELECT * FROM staging` copy puts every
value into its intended column. -/
theorem c9_column_alignment :
    dfColumns = warehouseSchemaColumns ∧ dfColumns.length = 9 ∧
      ∀ r : WeatherRecord, targetRowFromTuple (rowTuple r) = some r := by
  refine ⟨rfl, rfl, ?_⟩
  intro r
  rcases r with ⟨ra, tf, hp, pc, wm, wc, ln, la, lo⟩
  cases ra <;> cases tf <;> cases hp <;> cases pc <;> cases wm <;> cases wc <;> rfl

/-- Claim C7 (amended): when the HTTP request itself succeeds, a body with
no `hourly` object fails inside `extract` with `KeyError "hourly"` (and a
missing `time` array with `KeyError "time"`), but whenever `hourly` and its
`time` array are present `extract` succeeds without inspecting the five
requested measurement arrays — the absence of one of them (here
`temperature_2m`) only surfaces later, in the transformer, as a `KeyError`,
and no `MalformedResponseError` exists anywhere in the code. -/
theorem c7_error_surface (resp : HttpResponse)
    (hst : ¬(400 ≤ resp.status ∧ resp.status < 600)) :
    (resp.body.hourly = none →
      extract_weather_data resp = .error (.keyError "hourly")) ∧
    (∀ h, resp.body.hourly = some h → h.time = none →
      extract_weather_data resp = .error (.keyError "time")) ∧
    (∀ h ts, resp.body.hourly = some h → h.time = some ts →
      extract_weather_data resp = .ok resp.body) ∧
    (∀ h ts, resp.body.hourly = some h → h.time = some ts →
      h.temperature_2m = none → ∀ loc,
        transform_weather_data resp.body loc = .error (.keyError "temperature_2m")) := by
  refine ⟨?_, ?_, ?_, ?_⟩
  · intro hh
    simp only [extract_weather_data, raise_for_status, if_neg hst, hh, dictGet]
    rfl
  · intro h hh htm
    simp only [extract_weather_data, raise_for_status, if_neg hst, hh, htm, dictGet,
      Bind.bind, Except.bind]
  · intro h ts hh htm
    simp only [extract_weather_data, raise_for_status, if_neg hst, hh, htm, dictGet,
      Bind.bind, Except.bind]
  · intro h ts hh htm htemp loc
    simp only [transform_weather_data, transformCandidates, hh, htm, htemp, dictGet,
      Bind.bind, Except.bind]

/-- Claim C7 counterexample: a 200 response whose body lacks the
`temperature_2m` array is returned whole by `extract` (no failure of any
kind at the parse boundary); the missing key only faults in the
transformer. -/
theorem c7_counterexample :
    extract_weather_data c7resp = .ok c7resp.body ∧
      transform_weather_data c7resp.body "Boston, MA" =
        .error (.keyError "temperature_2m") :=
  ⟨rfl, rfl⟩

/-- Claim C7 witness: the amended statement applied to the concrete 200
response with a missing `temperature_2m` array. -/
theorem c7_witness :
    extract_weather_data c7resp = .ok c7resp.body ∧
      transform_weather_data c7resp.body "Boston, MA" =
        .error (.keyError "temperature_2m") ∧
      extract_weather_data c7resp ≠ .error (.keyError "temperature_2m") := by
  have H := c7_error_surface c7resp (by decide)
  refine ⟨H.2.2.1 c7hourly [some "2025-01-01T00:00"] rfl rfl, ?_, ?_⟩
  · exact H.2.2.2 c7hourly [some "2025-01-01T00:00"] rfl rfl rfl "Boston, MA"
  · rw [H.2.2.1 c7hourly [some "2025-01-01T00:00"] rfl rfl]
    exact fun hcon => by injection hcon

/-! Helper lemmas for the positional-alignment claim. -/

/-- When the five measurement arrays are as long as the time array, the
zipped candidate-row list has the time array's length. -/
theorem zipHourly_length (ts : List (Option String)) (xs ys zs ws : List (Option Rat))
    (vs : List (Option Int))
    (h2 : xs.length = ts.length) (h3 : ys.length = ts.length)
    (h4 : zs.length = ts.length) (h5 : ws.length = ts.length)
    (h6 : vs.length = ts.length) :
    (zipHourly ts xs ys zs ws vs).length = ts.length := by
  induction ts generalizing xs ys zs ws vs with
  | nil => rfl
  | cons t ts ih =>
    cases xs with
    | nil => simp at h2
    | cons x xs =>
      cases ys with
      | nil => simp at h3
      | cons y ys =>
        cases zs with
        | nil => simp at h4
        | cons z zs =>
          cases ws with
          | nil => simp at h5
          | cons w ws =>
            cases vs with
            | nil => simp at h6
            | cons v vs =>
              simp only [List.length_cons] at h2 h3 h4 h5 h6 ⊢
              rw [zipHourly, List.length_cons,
                ih xs ys zs ws vs (by omega) (by omega) (by omega) (by omega) (by omega)]

/-- Position `i` of the zipped candidate-row list combines position `i` of
each of the six input arrays. -/
theorem zipHourly_getElem (ts : List (Option String)) (xs ys zs ws : List (Option Rat))
    (vs : List (Option Int)) (i : Nat) (t : Option String) (a b c d : Option Rat)
    (e : Option Int)
    (h1 : ts[i]? = some t) (h2 : xs[i]? = some a) (h3 : ys[i]? = some b)
    (h4 : zs[i]? = some c) (h5 : ws[i]? = some d) (h6 : vs[i]? = some e) :
    (zipHourly ts xs ys zs ws vs)[i]? = some ⟨t, a, b, c, d, e⟩ := by
  induction ts generalizing xs ys zs ws vs i with
  | nil => simp at h1
  | cons t0 ts ih =>
    cases xs with
    | nil => simp at h2
    | cons x0 xs =>
      cases ys with
      | nil => simp at h3
      | cons y0 ys =>
        cases zs with
        | nil => simp at h4
        | cons z0 zs =>
          cases ws with
          | nil => simp at h5
          | cons w0 ws =>
            cases vs with
            | nil => simp at h6
            | cons v0 vs =>
              cases i with
              | zero =>
                simp only [List.getElem?_cons_zero, Option.some.injEq] at h1 h2 h3 h4 h5 h6
                subst h1 h2 h3 h4 h5 h6
                simp [zipHourly]
              | succ j =>
                simp only [List.getElem?_cons_succ] at h1 h2 h3 h4 h5 h6 ⊢
                rw [zipHourly, List.getElem?_cons_succ]
                exact ih xs ys zs ws vs j h1 h2 h3 h4 h5 h6

/-- A successful effectful map preserves the list length. -/
theorem mapExcept_ok_length {α β : Type} (f : α → Except PyExc β) (l : List α)
    (l2 : List β) (h : mapExcept f l = .ok l2) : l2.length = l.length := by
  induction l generalizing l2 with
  | nil =>
    simp only [mapExcept, Except.ok.injEq] at h
    cases h
    rfl
  | cons a l ih =>
    unfold mapExcept at h
    cases hfa : f a with
    | error e => rw [hfa] at h; simp [Bind.bind, Except.bind] at h
    | ok b =>
      rw [hfa] at h
      cases hml : mapExcept f l with
      | error e => rw [hml] at h; simp [Bind.bind, Except.bind] at h
      | ok bs =>
        rw [hml] at h
        simp only [Bind.bind, Except.bind, Except.ok.injEq] at h
        cases h
        simp [ih bs hml]

/-- A successful effectful map sends position `i` of the input to position
`i` of the output through `f`. -/
theorem mapExcept_ok_getElem {α β : Type} (f : α → Except PyExc β) (l : List α)
    (l2 : List β) (h : mapExcept f l = .ok l2) (i : Nat) (a : α)
    (ha : l[i]? = some a) : ∃ b, l2[i]? = some b ∧ f a = .ok b := by
  induction l generalizing l2 i with
  | nil => simp at ha
  | cons a0 l ih =>
    unfold mapExcept at h
    cases hfa : f a0 with
    | error e => rw [hfa] at h; simp [Bind.bind, Except.bind] at h
    | ok b0 =>
      rw [hfa] at h
      cases hml : mapExcept f l with
      | error e => rw [hml] at h; simp [Bind.bind, Except.bind] at h
      | ok bs =>
        rw [hml] at h
        simp only [Bind.bind, Except.bind, Except.ok.injEq] at h
        subst h
        cases i with
        | zero =>
          simp only [List.getElem?_cons_zero, Option.some.injEq] at ha
          subst ha
          exact ⟨b0, by simp, hfa⟩
        | succ j =>
          simp only [List.getElem?_cons_succ] at ha ⊢
          exact ih bs hml j ha

/-- A successful `rowToDatetime` converts the time cell and keeps every
measurement cell unchanged. -/
theorem rowToDatetime_ok (r r2 : CandidateRow) (h : rowToDatetime r = .ok r2) :
    toDatetime r.time = .ok r2.time ∧ r2.temperature_f = r.temperature_f ∧
      r2.humidity_pct = r.humidity_pct ∧ r2.precipitation_in = r.precipitation_in ∧
      r2.wind_speed_mph = r.wind_speed_mph ∧ r2.weather_code = r.weather_code := by
  unfold rowToDatetime at h
  cases ht : toDatetime r.time with
  | error e => rw [ht] at h; simp [Bind.bind, Except.bind] at h
  | ok t =>
    rw [ht] at h
    simp only [Bind.bind, Except.bind, Except.ok.injEq] at h
    cases h
    exact ⟨rfl, rfl, rfl, rfl, rfl, rfl⟩

/-- Claim C6: when the six parallel arrays share one length and the
candidate stage succeeds, the candidate table has one record per hour, and
the record at position `i` pairs `time[i]` (converted) with
`temperature_2m[i]`, `relative_humidity_2m[i]`, `precipitation[i]`,
`wind_speed_10m[i]` and `weather_code[i]`, carrying the uniform location
metadata — so the output order is the input time order. -/
theorem c6_positional_alignment (raw : RawData) (loc : String) (hourly : HourlyData)
    (time : List (Option String)) (temp hum prec wind : List (Option Rat))
    (code : List (Option Int)) (lat lon : Rat) (cands : List WeatherRecord)
    (hh : raw.hourly = some hourly)
    (ht0 : hourly.time = some time) (ht1 : hourly.temperature_2m = some temp)
    (ht2 : hourly.relative_humidity_2m = some hum) (ht3 : hourly.precipitation = some prec)
    (ht4 : hourly.wind_speed_10m = some wind) (ht5 : hourly.weather_code = some code)
    (hla : raw.latitude = some lat) (hlo : raw.longitude = some lon)
    (l1 : temp.length = time.length) (l2 : hum.length = time.length)
    (l3 : prec.length = time.length) (l4 : wind.length = time.length)
    (l5 : code.length = time.length)
    (hc : transformCandidates raw loc = .ok cands) :
    cands.length = time.length ∧
      ∀ i : Nat, ∀ t : Option String, time[i]? = some t →
        ∃ r : WeatherRecord, cands[i]? = some r ∧
          toDatetime t = .ok r.recorded_at ∧
          temp[i]? = some r.temperature_f ∧ hum[i]? = some r.humidity_pct ∧
          prec[i]? = some r.precipitation_in ∧ wind[i]? = some r.wind_speed_mph ∧
          code[i]? = some r.weather_code ∧
          r.location_name = loc ∧ r.latitude = lat ∧ r.longitude = lon := by
  unfold transformCandidates at hc
  simp only [hh, ht0, ht1, ht2, ht3, ht4, ht5, hla, hlo, dictGet, Bind.bind,
    Except.bind, l1, l2, l3, l4, l5, beq_self_eq_true, Bool.and_self, Bool.and_true,
    Bool.true_and, if_true] at hc
  cases hrows : mapExcept rowToDatetime (zipHourly time temp hum prec wind code) with
  | error e =>
    rw [hrows] at hc
    simp at hc
  | ok rows =>
    rw [hrows] at hc
    simp only [Except.ok.injEq] at hc
    subst hc
    have hzl : (zipHourly time temp hum prec wind code).length = time.length :=
      zipHourly_length time temp hum prec wind code l1 l2 l3 l4 l5
    have hrl : rows.length = (zipHourly time temp hum prec wind code).length :=
      mapExcept_ok_length rowToDatetime _ rows hrows
    constructor
    · simp [hrl, hzl]
    · intro i t hti
      have hi : i < time.length := by
        by_contra hge
        rw [List.getElem?_eq_none (by omega)] at hti
        cases hti
      have hbt : i < temp.length := by omega
      have hbh : i < hum.length := by omega
      have hbp : i < prec.length := by omega
      have hbw : i < wind.length := by omega
      have hbc : i < code.length := by omega
      have h2 := List.getElem?_eq_getElem hbt
      have h3 := List.getElem?_eq_getElem hbh
      have h4 := List.getElem?_eq_getElem hbp
      have h5 := List.getElem?_eq_getElem hbw
      have h6 := List.getElem?_eq_getElem hbc
      have hzip := zipHourly_getElem time temp hum prec wind code i t _ _ _ _ _
        hti h2 h3 h4 h5 h6
      obtain ⟨row2, hrow2, hfr⟩ := mapExcept_ok_getElem rowToDatetime _ rows hrows i _ hzip
      obtain ⟨htd, hf1, hf2, hf3, hf4, hf5⟩ := rowToDatetime_ok _ _ hfr
      simp only at htd hf1 hf2 hf3 hf4 hf5
      refine ⟨attachMeta loc lat lon row2, ?_, ?_, ?_, ?_, ?_, ?_, ?_, rfl, rfl, rfl⟩
      · rw [List.getElem?_map, hrow2]
        rfl
      · exact htd
      · simp [attachMeta, hf1]
      · simp [attachMeta, hf2]
      · simp [attachMeta, hf3]
      · simp [attachMeta, hf4]
      · simp [attachMeta, hf5]

/-- Claim C6 witness: the specification's two-hour example input, with
temperatures 30 and 31 paired to the two timestamps in order. -/
theorem c6_witness :
    c6cands.length = 2 ∧ c6cands[0]? = some c6rec0 ∧ c6cands[1]? = some c6rec1 ∧
      toDatetime (some "2025-01-01T00:00") = .ok c6rec0.recorded_at ∧
      c6rec0.temperature_f = some 30 ∧
      toDatetime (some "2025-01-01T01:00") = .ok c6rec1.recorded_at ∧
      c6rec1.temperature_f = some 31 := by
  have H := c6_positional_alignment c6raw "Boston, MA" _
    [some "2025-01-01T00:00", some "2025-01-01T01:00"]
    [some 30, some 31] [some 50, some 55] [some 0, some 0] [some 5, some 6]
    [some 1, some 2] 42 (-71) c6cands rfl rfl rfl rfl rfl rfl rfl rfl rfl
    rfl rfl rfl rfl rfl (by rfl)
  obtain ⟨hlen, hpt⟩ := H
  obtain ⟨r0, hr0, ht0, htm0, hrest0⟩ := hpt 0 (some "2025-01-01T00:00") rfl
  obtain ⟨r1, hr1, ht1, htm1, hrest1⟩ := hpt 1 (some "2025-01-01T01:00") rfl
  have e0 : r0 = c6rec0 := by
    have hx : some r0 = some c6rec0 := hr0.symm.trans (by rfl)
    injection hx
  have e1 : r1 = c6rec1 := by
    have hx : some r1 = some c6rec1 := hr1.symm.trans (by rfl)
    injection hx
  subst e0 e1
  exact ⟨hlen, hr0, hr1, ht0, rfl, ht1, rfl⟩

end WeatherEtl
